import Mathlib

/-!
Shallow embedding of the mode-arbitration and measurement-fusion loop of
`src/Estimation/tests/test_gtsam_advanced_estimator.py` (the per-cycle body of
the main `while` loop, lines 148-408), together with theorems settling the
frozen claims about it.

Modelling conventions:
* real-valued sensor quantities (forces, times, slip parameters, vertex
  coordinates) are rationals (`ℚ`);
* `num_line_contact_detected_count` is initialized to `np.inf` in the source;
  it is modelled as `Option ℕ` with `none` standing for infinity
  (`none + 1 = none`, `none > 15` is true, matching IEEE infinity arithmetic
  on these operations);
* the external collaborators (the gtsam estimator's internal optimization, the
  contact-mode reasoner's geometry, the transport layer) are out of scope per
  the spec; their per-cycle outputs are fields of `CycleInputs`, and the
  estimator method calls issued by the loop are recorded as an explicit trace;
* Python `x is not None and x` guards on `Option Bool` are modelled by
  `Option.getD · false`.
-/

namespace PBal

/-- `wall_contact_force_margin = 3.0` (source line 146). -/
def wall_contact_force_margin : ℚ := 3

/-- Dot product of two coefficient lists (models `np.dot` of a matrix row with
the wrench vector). -/
def dotQ (a w : List ℚ) : ℚ := (List.zipWith (fun x y => x * y) a w).sum

/-- One side of the wall-contact classifier (source lines 159-167):
`any(np.dot(A, wrench) > b + margin)` over the inequality rows, fail-open
(`True`) when the side has no rows. -/
def wallSideBool (aRows : List (List ℚ)) (bs : List ℚ) (wrench : List ℚ) : Bool :=
  if 0 < aRows.length then
    (List.zipWith (fun a b => decide (dotQ a wrench > b + wall_contact_force_margin))
      aRows bs).any id
  else
    true

/-- The wall flag computed on lines 169-174: `0` = right only, `1` = left only,
`2` = both, `-1` = neither. -/
def wallFlag (r l : Bool) : Int :=
  if r && !l then 0
  else if !r && l then 1
  else if r && l then 2
  else -1

/-- Result of `compute_feasibility_of_hand_line_object_corner_contact`:
the feasibility flag plus the latched payload (the contact vertex is the part
of the payload the loop reads, line 241). -/
structure CornerContactDict where
  is_feasible : Bool
  contact_vertex : ℕ
  deriving DecidableEq, Repr

/-- `num_line_contact_detected_count + 1`, where `none` models `np.inf`. -/
def incCount : Option ℕ → Option ℕ
  | none => none
  | some n => some (n + 1)

/-- The `num_line_contact_detected_count > 15` test, where `none` models
`np.inf` (infinity compares greater than 15). -/
def countGT15 : Option ℕ → Bool
  | none => true
  | some n => decide (15 < n)

/-- The persistent hysteresis state: the corner-feasibility flag, the
consecutive-infeasible counter, and the latched corner-contact payload. -/
structure HystState where
  corner_contact_is_feasible : Bool
  num_line_contact_detected_count : Option ℕ
  corner_contact_dict : Option CornerContactDict
  deriving DecidableEq, Repr

/-- One hysteresis update (source lines 201-211), run only when
`current_estimator.has_run_once` holds: a feasible report sets the flag,
latches the payload and zeroes the counter; an infeasible report increments
the counter and clears the flag once the counter exceeds 15. -/
def hystStep (report : CornerContactDict) (s : HystState) : HystState :=
  if report.is_feasible then
    ⟨true, some 0, some report⟩
  else
    let c := incCount s.num_line_contact_detected_count
    if countGT15 c then
      ⟨false, c, s.corner_contact_dict⟩
    else
      ⟨s.corner_contact_is_feasible, c, s.corner_contact_dict⟩

/-- Estimator method calls issued by the loop body (the estimator itself is an
external collaborator; the loop's contract with it is this call sequence). -/
inductive EstCall where
  | increment_time
  | add_hand_pose_measurement
  | add_hand_wrench_measurement
  | add_sliding_state
  | update_wall_contact_state (wall_on : Bool)
  | add_kinematic_constraints_object_corner_hand_line_contact
  | add_kinematic_constraints_hand_flush_contact
  | add_kinematic_constraints_no_hand_contact_for_vision_assist
  | add_kinematic_constraints_no_hand_contact_for_no_vision_assist
  | add_vision_estimate
  | add_vision_constraints_no_hand_contact (idx : ℕ)
  | add_vision_constraints_hand_flush_contact (idx : ℕ)
  deriving DecidableEq, Repr

/-- The slice of the external estimator's state that the loop reads or writes
directly (fields accessed on `current_estimator` in the loop body). -/
structure EstimatorState where
  has_run_once : Bool
  s_current : ℚ
  current_contact_face : Option ℕ
  contact_vertices : Option (List ℕ)
  deriving DecidableEq, Repr

/-- The snapshot returned by `compute_basic_estimate` when it is not `None`:
the two coordinate rows of `vertex_positions_wm_current` plus the per-vertex
weight terms. -/
structure EstimateDict where
  vn : List ℚ
  vt : List ℚ
  mglcos : List ℚ
  mglsin : List ℚ
  deriving DecidableEq, Repr

/-- The loop state that persists across cycles (source lines 137-146 for the
initializations), plus the tracked slices of the estimator and of the
reasoner (the reasoner's stored previous estimate). -/
structure LoopState where
  corner_contact_is_feasible : Bool
  num_line_contact_detected_count : Option ℕ
  corner_contact_dict : Option CornerContactDict
  prev_step_was_line_contact : Bool
  time_since_last_vision_message : ℚ
  est : EstimatorState
  reasoner_prev_estimate : Option EstimateDict
  deriving DecidableEq, Repr

/-- The per-cycle external inputs: transport-layer topic data plus the values
returned by the reasoner's per-cycle queries (the reasoner's geometry is an
external collaborator, so each query result is an input). -/
structure CycleInputs where
  aer : List (List ℚ)
  ber : List ℚ
  ael : List (List ℚ)
  bel : List ℚ
  wrench_wm : List ℚ
  torque_cone_boundary_test : Option Bool
  normal_force_ee : ℚ
  vision_new : Bool
  elapsed_since_vision : ℚ
  corner_report : CornerContactDict
  line_line_to_no_contact_check : Bool
  hand_contact_face : ℕ
  slip_reasoner : ℚ
  choose_hyp_corner : Option ℕ
  choose_hyp_flush : Option ℕ
  choose_hyp_vision : Option ℕ
  num_hyp_no_contact : ℕ
  estimate_result : Option EstimateDict
  contact_vertices_result : Option (List ℕ)
  hand_front_center_z : ℚ
  deriving DecidableEq, Repr

/-- The initial persistent state (source lines 137-146):
`time_since_last_vision_message = 100`, `corner_contact_is_feasible = False`,
`prev_step_was_line_contact = True`, counter at infinity, no latched payload. -/
def initialLoopState (e : EstimatorState) : LoopState :=
  ⟨false, none, none, true, 100, e, none⟩

/-- The five outcomes of the cascade. -/
inductive Mode where
  | corner
  | flush
  | visionAssist
  | noContact
  | idle
  deriving DecidableEq, Repr

/-- `rm.torque_cone_boundary_test is not None and rm.torque_cone_boundary_test`. -/
def tcbTest (i : CycleInputs) : Bool := i.torque_cone_boundary_test.getD false

/-- The mid-cycle state: hysteresis update (gated on `has_run_once`,
lines 199-211) followed by the vision staleness update (lines 216-224). -/
def midState (s : LoopState) (i : CycleInputs) : LoopState :=
  let h : HystState :=
    if s.est.has_run_once then
      hystStep i.corner_report
        ⟨s.corner_contact_is_feasible, s.num_line_contact_detected_count,
          s.corner_contact_dict⟩
    else
      ⟨s.corner_contact_is_feasible, s.num_line_contact_detected_count,
        s.corner_contact_dict⟩
  { s with
    corner_contact_is_feasible := h.corner_contact_is_feasible
    num_line_contact_detected_count := h.num_line_contact_detected_count
    corner_contact_dict := h.corner_contact_dict
    time_since_last_vision_message :=
      if i.vision_new then 0 else i.elapsed_since_vision }

/-- Outer guard of the corner-contact branch (line 228). -/
def cornerGuard (m : LoopState) (i : CycleInputs) : Bool :=
  tcbTest i && m.corner_contact_is_feasible && decide (i.normal_force_ee > 3)

/-- Outer guard of the flush-line branch (line 258). -/
def flushGuard (i : CycleInputs) : Bool :=
  tcbTest i && decide (i.normal_force_ee > 3)

/-- Outer guard of the vision-assist branch (line 294):
`polygon_vision_estimate_has_new and polygon_vision_estimate_dict is not None`
(the same conjunction that triggers the staleness reset, so one field). -/
def visionGuard (i : CycleInputs) : Bool := i.vision_new

/-- Outer guard of the no-contact branch (line 326). -/
def noContactGuard (m : LoopState) (i : CycleInputs) : Bool :=
  i.line_line_to_no_contact_check && decide (m.time_since_last_vision_message > 1)

/-- The if/elif cascade: first branch whose outer guard holds, else idle. -/
def selectMode (m : LoopState) (i : CycleInputs) : Mode :=
  if cornerGuard m i then .corner
  else if flushGuard i then .flush
  else if visionGuard i then .visionAssist
  else if noContactGuard m i then .noContact
  else .idle

/-- The if/elif firing condition of each outcome: its own outer guard
conjoined with the negation of every earlier guard. -/
def fires (mo : Mode) (m : LoopState) (i : CycleInputs) : Bool :=
  match mo with
  | .corner => cornerGuard m i
  | .flush => !cornerGuard m i && flushGuard i
  | .visionAssist => !cornerGuard m i && !flushGuard i && visionGuard i
  | .noContact =>
      !cornerGuard m i && !flushGuard i && !visionGuard i && noContactGuard m i
  | .idle =>
      !cornerGuard m i && !flushGuard i && !visionGuard i && !noContactGuard m i

/-- What one cascade branch produces: the updated estimator slice, the trace
of estimator method calls issued, the `can_run_estimate` flag, the
`hand_contact_indices` list, and the outgoing `prev_step_was_line_contact`. -/
structure BranchResult where
  est : EstimatorState
  trace : List EstCall
  can_run_estimate : Bool
  hand_contact_indices : List ℕ
  prev_step_was_line_contact : Bool
  deriving DecidableEq, Repr

/-- A branch that issues no estimator call and mutates nothing. -/
def idleResult (m : LoopState) : BranchResult :=
  ⟨m.est, [], false, [], m.prev_step_was_line_contact⟩

/-- The vision freshness test `time_since_last_vision_message < .2`
(lines 247 and 284). -/
def visionFresh (m : LoopState) : Bool :=
  decide (m.time_since_last_vision_message < 1 / 5)

/-- Corner-contact branch body (lines 228-253). The vision estimate and the
corner vision constraint are issued only when vision is fresh and
`choose_vision_hypothesis` returned an index. -/
def cornerAction (m : LoopState) (i : CycleInputs) (wall_on : Bool) : BranchResult :=
  let visionCalls : List EstCall :=
    if visionFresh m then
      match i.choose_hyp_corner with
      | some idx =>
          [.add_vision_estimate, .add_vision_constraints_no_hand_contact idx]
      | none => []
    else []
  { est := { m.est with current_contact_face := none }
    trace := [.increment_time, .add_hand_pose_measurement,
      .add_hand_wrench_measurement, .add_sliding_state,
      .update_wall_contact_state wall_on,
      .add_kinematic_constraints_object_corner_hand_line_contact] ++ visionCalls
    can_run_estimate := true
    hand_contact_indices :=
      match m.corner_contact_dict with
      | some d => [d.contact_vertex]
      | none => []
    prev_step_was_line_contact := false }

/-- Flush-line branch body (lines 258-291). `s_current` is re-seeded from the
reasoner exactly when the previous cycle was not a line-contact cycle; when
vision is fresh the vision estimate is issued unconditionally (line 286) and
the flush vision constraint only when a hypothesis was chosen. -/
def flushAction (m : LoopState) (i : CycleInputs) (wall_on : Bool)
    (num_vertices : ℕ) : BranchResult :=
  let est1 : EstimatorState :=
    { m.est with current_contact_face := some i.hand_contact_face }
  let est2 : EstimatorState :=
    if !m.prev_step_was_line_contact then
      { est1 with s_current := i.slip_reasoner }
    else est1
  let visionCalls : List EstCall :=
    if visionFresh m then
      .add_vision_estimate ::
        (match i.choose_hyp_flush with
         | some idx => [.add_vision_constraints_hand_flush_contact idx]
         | none => [])
    else []
  { est := est2
    trace := [.increment_time, .add_hand_pose_measurement,
      .add_hand_wrench_measurement, .add_sliding_state,
      .update_wall_contact_state wall_on,
      .add_kinematic_constraints_hand_flush_contact] ++ visionCalls
    can_run_estimate := true
    hand_contact_indices :=
      [i.hand_contact_face, (i.hand_contact_face + 1) % num_vertices]
    prev_step_was_line_contact := true }

/-- Vision-assist branch body (lines 294-324): everything is gated on
`choose_vision_hypothesis` returning an index; with no index the branch
mutates nothing. -/
def visionAction (m : LoopState) (i : CycleInputs) (wall_on : Bool) : BranchResult :=
  match i.choose_hyp_vision with
  | none => idleResult m
  | some idx =>
      { est := { m.est with current_contact_face := none }
        trace := [.increment_time, .add_hand_pose_measurement,
          .add_hand_wrench_measurement, .add_sliding_state,
          .update_wall_contact_state wall_on] ++
          (if m.est.has_run_once then
            [.add_kinematic_constraints_no_hand_contact_for_vision_assist]
          else []) ++
          [.add_vision_estimate, .add_vision_constraints_no_hand_contact idx]
        can_run_estimate := true
        hand_contact_indices := []
        prev_step_was_line_contact := false }

/-- No-contact branch body (lines 326-347): everything is gated on the
no-contact kinematic hypothesis set having exactly one hypothesis; note the
wall-contact-state update is absent from this call sequence. -/
def noContactAction (m : LoopState) (i : CycleInputs) : BranchResult :=
  if i.num_hyp_no_contact = 1 then
    { est := { m.est with current_contact_face := none }
      trace := [.increment_time, .add_hand_pose_measurement,
        .add_hand_wrench_measurement, .add_sliding_state,
        .add_kinematic_constraints_no_hand_contact_for_no_vision_assist]
      can_run_estimate := true
      hand_contact_indices := []
      prev_step_was_line_contact := false }
  else idleResult m

/-- Dispatch of the selected branch body. -/
def branchAction (mo : Mode) (m : LoopState) (i : CycleInputs) (wall_on : Bool)
    (num_vertices : ℕ) : BranchResult :=
  match mo with
  | .corner => cornerAction m i wall_on
  | .flush => flushAction m i wall_on num_vertices
  | .visionAssist => visionAction m i wall_on
  | .noContact => noContactAction m i
  | .idle => idleResult m

/-- The pivot-frame publication step (lines 364-368): publish exactly when
`current_estimator.contact_vertices is not None`, reading the first element of
the contact vertex set and that vertex's two coordinates; an out-of-range
access is an error (Python `IndexError`), `.ok none` means no publication. -/
def buildPivot (cv : Option (List ℕ)) (d : EstimateDict) (z : ℚ) :
    Except String (Option (ℚ × ℚ × ℚ)) :=
  match cv with
  | none => .ok none
  | some [] => .error "contact_vertices: index 0 out of bounds"
  | some (ci :: _) =>
      match d.vn[ci]?, d.vt[ci]? with
      | some pn, some pt => .ok (some (pn, pt, z))
      | _, _ => .error "vertex_positions_wm_current: vertex index out of bounds"

/-- Index of the first minimal element of a nonempty list (`np.argmin`);
`0` for the empty list. -/
def argminIdx (l : List ℚ) : ℕ :=
  (l.enum.foldl
    (fun best p => if p.2 < best.2 then p else best)
    (0, l.headD 0)).1

/-- Index of the first maximal element of a nonempty list (`np.argmax`);
`0` for the empty list. -/
def argmaxIdx (l : List ℚ) : ℕ :=
  (l.enum.foldl
    (fun best p => if best.2 < p.2 then p else best)
    (0, l.headD 0)).1

/-- Right-wall test of this cycle (line 159-162). -/
def wallRight (i : CycleInputs) : Bool := wallSideBool i.aer i.ber i.wrench_wm

/-- Left-wall test of this cycle (line 164-167). -/
def wallLeft (i : CycleInputs) : Bool := wallSideBool i.ael i.bel i.wrench_wm

/-- Everything one cycle of the loop produces. -/
structure CycleResult where
  state : LoopState
  mode : Mode
  can_run_estimate : Bool
  trace : List EstCall
  wall_flag : Int
  hand_contact_indices : List ℕ
  wall_contact_indices : List ℕ
  pivot : Except String (Option (ℚ × ℚ × ℚ))
  contact_published : Bool
  deriving Repr

/-- One full cycle of the main loop body (lines 148-402): wall classification,
reasoner updates, hysteresis, staleness, the cascade, and — when a branch set
`can_run_estimate` — the estimate/publication phase, in which the reasoner's
previous estimate is updated with the raw `compute_basic_estimate` result
before the `None` check. -/
def runCycle (num_vertices : ℕ) (s : LoopState) (i : CycleInputs) : CycleResult :=
  let r := wallRight i
  let l := wallLeft i
  let wflag := wallFlag r l
  let wall_on := r || l
  let m := midState s i
  let mo := selectMode m i
  let br := branchAction mo m i wall_on num_vertices
  if br.can_run_estimate then
    let est2 : EstimatorState :=
      { br.est with contact_vertices := i.contact_vertices_result }
    let s2 : LoopState :=
      { m with
        est := est2
        prev_step_was_line_contact := br.prev_step_was_line_contact
        reasoner_prev_estimate := i.estimate_result }
    match i.estimate_result with
    | none =>
        ⟨s2, mo, br.can_run_estimate, br.trace, wflag, br.hand_contact_indices,
          [], .ok none, false⟩
    | some d =>
        let piv := buildPivot est2.contact_vertices d i.hand_front_center_z
        let wci : List ℕ :=
          if wflag = 0 then [argminIdx d.vt]
          else if wflag = 1 then [argmaxIdx d.vt]
          else []
        ⟨s2, mo, br.can_run_estimate, br.trace, wflag, br.hand_contact_indices,
          wci, piv, true⟩
  else
    let s2 : LoopState :=
      { m with
        est := br.est
        prev_step_was_line_contact := br.prev_step_was_line_contact }
    ⟨s2, mo, br.can_run_estimate, br.trace, wflag, br.hand_contact_indices, [],
      .ok none, false⟩

/-- The outcome that actually ran its estimator-call sequence this cycle:
the selected branch when it set `can_run_estimate`, else idle. -/
def firedMode (r : CycleResult) : Mode :=
  if r.can_run_estimate then r.mode else .idle

/-- The state transformer of one cycle, for iteration. -/
def cycleState (num_vertices : ℕ) (i : CycleInputs) (s : LoopState) : LoopState :=
  (runCycle num_vertices s i).state

/-- The hysteresis-relevant projection of the loop state. -/
def hystOf (s : LoopState) : HystState :=
  ⟨s.corner_contact_is_feasible, s.num_line_contact_detected_count,
    s.corner_contact_dict⟩

/-! ### Structural lemmas about `runCycle` -/

lemma runCycle_mode (nv : ℕ) (s : LoopState) (i : CycleInputs) :
    (runCycle nv s i).mode = selectMode (midState s i) i := by
  unfold runCycle
  dsimp only
  split <;> (try split) <;> rfl

lemma runCycle_trace (nv : ℕ) (s : LoopState) (i : CycleInputs) :
    (runCycle nv s i).trace =
      (branchAction (selectMode (midState s i) i) (midState s i) i
        (wallRight i || wallLeft i) nv).trace := by
  unfold runCycle
  dsimp only
  split <;> (try split) <;> rfl

lemma runCycle_can_run (nv : ℕ) (s : LoopState) (i : CycleInputs) :
    (runCycle nv s i).can_run_estimate =
      (branchAction (selectMode (midState s i) i) (midState s i) i
        (wallRight i || wallLeft i) nv).can_run_estimate := by
  unfold runCycle
  dsimp only
  split <;> (try split) <;> rfl

lemma runCycle_prev (nv : ℕ) (s : LoopState) (i : CycleInputs) :
    (runCycle nv s i).state.prev_step_was_line_contact =
      (branchAction (selectMode (midState s i) i) (midState s i) i
        (wallRight i || wallLeft i) nv).prev_step_was_line_contact := by
  unfold runCycle
  dsimp only
  split <;> (try split) <;> rfl

lemma runCycle_s_current (nv : ℕ) (s : LoopState) (i : CycleInputs) :
    (runCycle nv s i).state.est.s_current =
      (branchAction (selectMode (midState s i) i) (midState s i) i
        (wallRight i || wallLeft i) nv).est.s_current := by
  unfold runCycle
  dsimp only
  split <;> (try split) <;> rfl

lemma runCycle_has_run_once_raw (nv : ℕ) (s : LoopState) (i : CycleInputs) :
    (runCycle nv s i).state.est.has_run_once =
      (branchAction (selectMode (midState s i) i) (midState s i) i
        (wallRight i || wallLeft i) nv).est.has_run_once := by
  unfold runCycle
  dsimp only
  split <;> (try split) <;> rfl

lemma runCycle_hystOf_raw (nv : ℕ) (s : LoopState) (i : CycleInputs) :
    hystOf (runCycle nv s i).state = hystOf (midState s i) := by
  unfold runCycle
  dsimp only
  split <;> (try split) <;> rfl

lemma branchAction_has_run_once (mo : Mode) (m : LoopState) (i : CycleInputs)
    (w : Bool) (nv : ℕ) :
    (branchAction mo m i w nv).est.has_run_once = m.est.has_run_once := by
  cases mo <;>
    simp only [branchAction, cornerAction, flushAction, visionAction,
      noContactAction, idleResult] <;>
    (try split) <;>
    (try split) <;>
    (try rfl)

lemma midState_est (s : LoopState) (i : CycleInputs) :
    (midState s i).est = s.est := by
  unfold midState
  rfl

lemma midState_prev (s : LoopState) (i : CycleInputs) :
    (midState s i).prev_step_was_line_contact = s.prev_step_was_line_contact := by
  unfold midState
  rfl

lemma runCycle_has_run_once (nv : ℕ) (s : LoopState) (i : CycleInputs) :
    (runCycle nv s i).state.est.has_run_once = s.est.has_run_once := by
  rw [runCycle_has_run_once_raw, branchAction_has_run_once, midState_est]

lemma midState_hystOf (s : LoopState) (i : CycleInputs)
    (h : s.est.has_run_once = true) :
    hystOf (midState s i) = hystStep i.corner_report (hystOf s) := by
  unfold midState hystOf
  rw [h]
  rfl

lemma runCycle_hystOf (nv : ℕ) (s : LoopState) (i : CycleInputs)
    (h : s.est.has_run_once = true) :
    hystOf (runCycle nv s i).state = hystStep i.corner_report (hystOf s) := by
  rw [runCycle_hystOf_raw, midState_hystOf s i h]

lemma fires_selectMode (m : LoopState) (i : CycleInputs) :
    fires (selectMode m i) m i = true := by
  unfold selectMode fires
  cases hc : cornerGuard m i <;> cases hf : flushGuard i <;>
    cases hv : visionGuard i <;> cases hn : noContactGuard m i <;> simp

lemma fires_unique (m : LoopState) (i : CycleInputs) (mo : Mode)
    (h : fires mo m i = true) : mo = selectMode m i := by
  cases mo <;>
    simp only [fires, Bool.and_eq_true, Bool.not_eq_true'] at h <;>
    unfold selectMode <;>
    simp_all

lemma selectMode_corner_guard (m : LoopState) (i : CycleInputs)
    (h : selectMode m i = Mode.corner) : cornerGuard m i = true := by
  unfold selectMode at h
  cases hc : cornerGuard m i <;> cases hf : flushGuard i <;>
    cases hv : visionGuard i <;> cases hn : noContactGuard m i <;> simp_all

lemma selectMode_noContact_guard (m : LoopState) (i : CycleInputs)
    (h : selectMode m i = Mode.noContact) : noContactGuard m i = true := by
  unfold selectMode at h
  cases hc : cornerGuard m i <;> cases hf : flushGuard i <;>
    cases hv : visionGuard i <;> cases hn : noContactGuard m i <;> simp_all

lemma runCycle_state_no_run (nv : ℕ) (s : LoopState) (i : CycleInputs)
    (h : (branchAction (selectMode (midState s i) i) (midState s i) i
        (wallRight i || wallLeft i) nv).can_run_estimate = false) :
    (runCycle nv s i).state =
      { midState s i with
        est := (branchAction (selectMode (midState s i) i) (midState s i) i
          (wallRight i || wallLeft i) nv).est
        prev_step_was_line_contact :=
          (branchAction (selectMode (midState s i) i) (midState s i) i
            (wallRight i || wallLeft i) nv).prev_step_was_line_contact } := by
  unfold runCycle
  dsimp only
  split <;> (try split) <;> simp_all

lemma runCycle_rpe (nv : ℕ) (s : LoopState) (i : CycleInputs) :
    (runCycle nv s i).state.reasoner_prev_estimate =
      (if (branchAction (selectMode (midState s i) i) (midState s i) i
          (wallRight i || wallLeft i) nv).can_run_estimate
       then i.estimate_result else s.reasoner_prev_estimate) := by
  unfold runCycle
  dsimp only
  split <;> (try split) <;> simp_all [midState]

lemma runCycle_pub_of_none (nv : ℕ) (s : LoopState) (i : CycleInputs)
    (he : i.estimate_result = none) :
    (runCycle nv s i).contact_published = false ∧
      (runCycle nv s i).pivot = Except.ok none := by
  unfold runCycle
  dsimp only
  split <;> (try split) <;> simp_all

lemma runCycle_pub_of_some (nv : ℕ) (s : LoopState) (i : CycleInputs)
    (d : EstimateDict) (he : i.estimate_result = some d)
    (h : (branchAction (selectMode (midState s i) i) (midState s i) i
        (wallRight i || wallLeft i) nv).can_run_estimate = true) :
    (runCycle nv s i).contact_published = true ∧
      (runCycle nv s i).pivot =
        buildPivot i.contact_vertices_result d i.hand_front_center_z := by
  unfold runCycle
  dsimp only
  split <;> (try split) <;> simp_all

lemma mem_vision_cornerAction (m : LoopState) (i : CycleInputs) (w : Bool) :
    EstCall.add_vision_estimate ∈ (cornerAction m i w).trace ↔
      (visionFresh m = true ∧ ∃ k, i.choose_hyp_corner = some k) := by
  unfold cornerAction
  cases hf : visionFresh m <;> cases hk : i.choose_hyp_corner <;> simp

lemma mem_vision_flushAction (m : LoopState) (i : CycleInputs) (w : Bool)
    (nv : ℕ) :
    EstCall.add_vision_estimate ∈ (flushAction m i w nv).trace ↔
      visionFresh m = true := by
  unfold flushAction
  cases hf : visionFresh m <;> cases hk : i.choose_hyp_flush <;> simp

lemma mem_constraint_flushAction (m : LoopState) (i : CycleInputs) (w : Bool)
    (nv : ℕ) (k : ℕ) :
    EstCall.add_vision_constraints_hand_flush_contact k ∈
        (flushAction m i w nv).trace ↔
      (visionFresh m = true ∧ i.choose_hyp_flush = some k) := by
  unfold flushAction
  cases hf : visionFresh m <;> cases hk : i.choose_hyp_flush <;> simp
  omega

lemma flushAction_prev (m : LoopState) (i : CycleInputs) (w : Bool) (nv : ℕ) :
    (flushAction m i w nv).prev_step_was_line_contact = true := rfl

lemma flushAction_s_current (m : LoopState) (i : CycleInputs) (w : Bool) (nv : ℕ) :
    (flushAction m i w nv).est.s_current =
      (if m.prev_step_was_line_contact then m.est.s_current else i.slip_reasoner) := by
  unfold flushAction
  cases hp : m.prev_step_was_line_contact <;> simp [hp]

lemma cornerAction_prev (m : LoopState) (i : CycleInputs) (w : Bool) :
    (cornerAction m i w).prev_step_was_line_contact = false := rfl

/-! ### Hysteresis iteration lemmas -/

lemma hystStep_feasible (r : CornerContactDict) (hr : r.is_feasible = true)
    (h : HystState) : hystStep r h = ⟨true, some 0, some r⟩ := by
  unfold hystStep
  rw [hr]
  simp

lemma hystStep_infeasible_pow (r : CornerContactDict)
    (hr : r.is_feasible = false) (d : Option CornerContactDict) (k : ℕ) :
    (hystStep r)^[k] ⟨true, some 0, d⟩ =
      ⟨decide (k ≤ 15), some k, d⟩ := by
  induction k with
  | zero => simp
  | succ n ih =>
      rw [Function.iterate_succ_apply', ih]
      unfold hystStep
      rw [hr]
      by_cases h15 : 15 < n + 1
      · simp [incCount, countGT15, h15, decide_eq_false (by omega : ¬(n + 1 ≤ 15))]
        omega
      · simp [incCount, countGT15, h15,
          decide_eq_true (by omega : n + 1 ≤ 15),
          decide_eq_true (by omega : n ≤ 15)]
        omega

lemma cycleState_hro (nv : ℕ) (i : CycleInputs) (s : LoopState) :
    (cycleState nv i s).est.has_run_once = s.est.has_run_once := by
  unfold cycleState
  exact runCycle_has_run_once nv s i

lemma cycleState_iter_hyst (nv : ℕ) (i : CycleInputs) (k : ℕ) :
    ∀ s : LoopState, s.est.has_run_once = true →
      hystOf ((cycleState nv i)^[k] s) =
          (hystStep i.corner_report)^[k] (hystOf s) ∧
        ((cycleState nv i)^[k] s).est.has_run_once = true := by
  induction k with
  | zero => exact fun s hs => ⟨rfl, hs⟩
  | succ n ih =>
      intro s hs
      rw [Function.iterate_succ_apply, Function.iterate_succ_apply]
      have h1 : (cycleState nv i s).est.has_run_once = true := by
        rw [cycleState_hro]; exact hs
      have h2 := ih (cycleState nv i s) h1
      refine ⟨?_, h2.2⟩
      rw [h2.1, cycleState, runCycle_hystOf nv s i hs]

/-! ### Concrete sample states and inputs (used by the closed witness and
counterexample theorems) -/

/-- An estimator slice with `has_run_once` set. -/
def estHR : EstimatorState := ⟨true, 0, none, none⟩

/-- An infeasible corner report. -/
def dictInf : CornerContactDict := ⟨false, 0⟩

/-- A feasible corner report latching contact vertex 2. -/
def dictFeas : CornerContactDict := ⟨true, 2⟩

/-- A state just after a feasible corner report: flag set, counter zero. -/
def sFeas : LoopState := ⟨true, some 0, some dictFeas, true, 100, estHR, none⟩

/-- A state with the corner flag down and the counter at infinity. -/
def sBase : LoopState := initialLoopState estHR

/-- Neutral inputs: no torque-boundary signal, no force, no vision, no
transition check; every cycle on these inputs idles. -/
def baseIn : CycleInputs :=
  ⟨[], [], [], [], [], none, 0, false, 100, dictInf, false, 0, 7,
    none, none, none, 0, none, none, 0⟩


def iCorner : CycleInputs :=
  { baseIn with torque_cone_boundary_test := some true, normal_force_ee := 4,
                corner_report := dictFeas }

def iC3 : CycleInputs :=
  { iCorner with elapsed_since_vision := 1/5, choose_hyp_corner := some 0 }

def iC4 : CycleInputs :=
  { baseIn with torque_cone_boundary_test := some true, normal_force_ee := 4,
                elapsed_since_vision := 1/10, choose_hyp_flush := none }

def iC5 : CycleInputs :=
  { baseIn with line_line_to_no_contact_check := true, elapsed_since_vision := 2,
                num_hyp_no_contact := 0 }

/-- Neutral inputs carrying a feasible corner report. -/
def iFeas : CycleInputs := { baseIn with corner_report := dictFeas }

/-- A flush cycle whose fresh vision carries an unambiguous hypothesis. -/
def iC4b : CycleInputs := { iC4 with choose_hyp_flush := some 1 }

/-- Inputs visited by a fresh vision message. -/
def iVis : CycleInputs := { baseIn with vision_new := true }

/-- A state whose previous cycle was not a line-contact cycle. -/
def sPrevF : LoopState := { sBase with prev_step_was_line_contact := false }

/-- A concrete two-vertex estimate snapshot. -/
def d0 : EstimateDict := ⟨[1, 2], [3, 4], [0, 0], [0, 0]⟩

/-- A corner cycle whose estimate succeeds with contact vertex set `[1]`. -/
def iC8 : CycleInputs :=
  { iCorner with estimate_result := some d0, contact_vertices_result := some [1] }

/-- A feasible-corner state whose infeasible counter already reads 14. -/
def s14 : LoopState := ⟨true, some 14, some dictFeas, true, 100, estHR, none⟩

/-- Inputs passing the torque-boundary and force guards with an infeasible
corner report. -/
def iCF : CycleInputs :=
  { baseIn with torque_cone_boundary_test := some true, normal_force_ee := 4 }

/-! ### Claim theorems -/

/-- C1: per cycle, the if/elif cascade fires exactly one of the five outcomes
(corner, flush-line, vision-assist, no-contact, idle): the outcome selected by
`runCycle` is the first branch whose guard holds, its firing condition is true,
and it is the unique outcome whose firing condition is true; being a function
of the state and inputs, the selection is deterministic. -/
theorem claim1_cascade_exactly_one (nv : ℕ) (s : LoopState) (i : CycleInputs) :
    (runCycle nv s i).mode = selectMode (midState s i) i ∧
    fires (selectMode (midState s i) i) (midState s i) i = true ∧
    ∀ mo : Mode, fires mo (midState s i) i = true →
      mo = selectMode (midState s i) i :=
  ⟨runCycle_mode nv s i, fires_selectMode _ i, fun mo h => fires_unique _ i mo h⟩

/-- C1 witness at a concrete idle cycle. -/
theorem claim1_witness :
    (runCycle 4 sBase baseIn).mode = selectMode (midState sBase baseIn) baseIn ∧
    Mode.idle = selectMode (midState sBase baseIn) baseIn :=
  ⟨(claim1_cascade_exactly_one 4 sBase baseIn).1,
    (claim1_cascade_exactly_one 4 sBase baseIn).2.2 Mode.idle
      (by with_unfolding_all decide)⟩

/-- C2 counterexample: starting right after a feasible corner report (flag
true, counter reset to 0), 15 consecutive cycles with infeasible reports leave
`corner_contact_is_feasible` true — the claim that the 15th consecutive
infeasible report flips it false is wrong (the counter reaches 15, and the
flip requires `> 15`). -/
theorem claim2_counterexample :
    ((cycleState 4 baseIn)^[15]
        (cycleState 4 iFeas sBase)).corner_contact_is_feasible = true := by
  with_unfolding_all decide

/-- C2 amended: a feasible report sets the flag, zeroes the counter and
latches the payload; from that point, up to 15 consecutive infeasible reports
leave the flag true, and the 16th consecutive infeasible report flips it
false. -/
theorem claim2_amended (nv : ℕ) (s : LoopState) (i_f i_n : CycleInputs)
    (hrun : s.est.has_run_once = true)
    (hf : i_f.corner_report.is_feasible = true)
    (hn : i_n.corner_report.is_feasible = false) :
    (cycleState nv i_f s).corner_contact_is_feasible = true ∧
    (cycleState nv i_f s).num_line_contact_detected_count = some 0 ∧
    (cycleState nv i_f s).corner_contact_dict = some i_f.corner_report ∧
    (∀ k, k ≤ 15 →
      ((cycleState nv i_n)^[k]
          (cycleState nv i_f s)).corner_contact_is_feasible = true) ∧
    ((cycleState nv i_n)^[16]
        (cycleState nv i_f s)).corner_contact_is_feasible = false := by
  have h0 : hystOf (cycleState nv i_f s) =
      ⟨true, some 0, some i_f.corner_report⟩ := by
    rw [cycleState, runCycle_hystOf nv s i_f hrun, hystStep_feasible _ hf]
  have hro : (cycleState nv i_f s).est.has_run_once = true := by
    rw [cycleState_hro]; exact hrun
  refine ⟨congrArg HystState.corner_contact_is_feasible h0,
    congrArg HystState.num_line_contact_detected_count h0,
    congrArg HystState.corner_contact_dict h0, ?_, ?_⟩
  · intro k hk
    have hiter := (cycleState_iter_hyst nv i_n k (cycleState nv i_f s) hro).1
    rw [h0, hystStep_infeasible_pow i_n.corner_report hn _ k] at hiter
    have hp := congrArg HystState.corner_contact_is_feasible hiter
    simpa [decide_eq_true hk] using hp
  · have hiter := (cycleState_iter_hyst nv i_n 16 (cycleState nv i_f s) hro).1
    rw [h0, hystStep_infeasible_pow i_n.corner_report hn _ 16] at hiter
    have hp := congrArg HystState.corner_contact_is_feasible hiter
    simpa using hp

/-- C2 witness at concrete inputs: feasible report, then 15 infeasible cycles
keep the flag, the 16th clears it. -/
theorem claim2_witness :
    (cycleState 4 iFeas sBase).corner_contact_is_feasible = true ∧
    ((cycleState 4 baseIn)^[14]
        (cycleState 4 iFeas sBase)).corner_contact_is_feasible = true ∧
    ((cycleState 4 baseIn)^[16]
        (cycleState 4 iFeas sBase)).corner_contact_is_feasible = false :=
  ⟨(claim2_amended 4 sBase iFeas baseIn rfl rfl rfl).1,
    (claim2_amended 4 sBase iFeas baseIn rfl rfl rfl).2.2.2.1 14 (by norm_num),
    (claim2_amended 4 sBase iFeas baseIn rfl rfl rfl).2.2.2.2⟩

/-- C3 counterexample: in a corner-contact cycle whose vision age is exactly
0.2 s, with an unambiguous hypothesis choice available, no vision input
reaches the estimator — so "fresh for every elapsed time ≤ 0.2 s" fails at
exactly 0.2 s (the code tests `< .2` strictly). -/
theorem claim3_counterexample :
    iC3.vision_new = false ∧
    iC3.elapsed_since_vision = 1 / 5 ∧
    iC3.choose_hyp_corner = some 0 ∧
    (runCycle 4 sFeas iC3).mode = Mode.corner ∧
    EstCall.add_vision_estimate ∉ (runCycle 4 sFeas iC3).trace := by
  with_unfolding_all decide

/-- C3 amended: a new vision message resets the elapsed time to 0; otherwise
the elapsed time is carried through; vision counts as fresh (eligible for
fusion in the contact branches) exactly when the elapsed time is strictly
below 0.2 s (at stale vision the contact branches issue no vision estimate);
the no-contact transition is eligible exactly when the elapsed time strictly
exceeds 1.0 s. -/
theorem claim3_amended (nv : ℕ) (s : LoopState) (i : CycleInputs) :
    (i.vision_new = true →
      (midState s i).time_since_last_vision_message = 0) ∧
    (i.vision_new = false →
      (midState s i).time_since_last_vision_message = i.elapsed_since_vision) ∧
    (visionFresh (midState s i) = true ↔
      (midState s i).time_since_last_vision_message < 1 / 5) ∧
    (selectMode (midState s i) i = Mode.corner →
      visionFresh (midState s i) = false →
      EstCall.add_vision_estimate ∉ (runCycle nv s i).trace) ∧
    (selectMode (midState s i) i = Mode.flush →
      visionFresh (midState s i) = false →
      EstCall.add_vision_estimate ∉ (runCycle nv s i).trace) ∧
    (noContactGuard (midState s i) i = true ↔
      (i.line_line_to_no_contact_check = true ∧
        (midState s i).time_since_last_vision_message > 1)) := by
  refine ⟨fun h => ?_, fun h => ?_, ?_, fun hm hf => ?_, fun hm hf => ?_, ?_⟩
  · show (if i.vision_new then 0 else i.elapsed_since_vision) = 0
    rw [h]; rfl
  · show (if i.vision_new then 0 else i.elapsed_since_vision) =
      i.elapsed_since_vision
    rw [h]; rfl
  · exact decide_eq_true_iff
  · rw [runCycle_trace, hm]
    show EstCall.add_vision_estimate ∉ (cornerAction _ _ _).trace
    simp [mem_vision_cornerAction, hf]
  · rw [runCycle_trace, hm]
    show EstCall.add_vision_estimate ∉ (flushAction _ _ _ _).trace
    simp [mem_vision_flushAction, hf]
  · unfold noContactGuard
    simp [decide_eq_true_iff]

/-- C3 witness: a fresh vision message resets the elapsed time at a concrete
input, and the concrete exactly-0.2 s corner cycle fuses nothing. -/
theorem claim3_witness :
    (midState sBase iVis).time_since_last_vision_message = 0 ∧
    EstCall.add_vision_estimate ∉ (runCycle 4 sFeas iC3).trace :=
  ⟨(claim3_amended 4 sBase iVis).1 rfl,
    (claim3_amended 4 sFeas iC3).2.2.2.1
      (by with_unfolding_all decide) (by with_unfolding_all decide)⟩

/-- C4 counterexample: a flush-line cycle with fresh vision in which
`choose_vision_hypothesis` returned `None` still hands the vision estimate to
the estimator (`add_vision_estimate` is issued before the null check,
source line 286) — refuting "if the choice is null, the estimator receives no
vision input that cycle". -/
theorem claim4_counterexample :
    (runCycle 4 sBase iC4).mode = Mode.flush ∧
    visionFresh (midState sBase iC4) = true ∧
    iC4.choose_hyp_flush = none ∧
    EstCall.add_vision_estimate ∈ (runCycle 4 sBase iC4).trace := by
  with_unfolding_all decide

/-- C4 amended: in FlushLineContactMode with fresh vision, the vision estimate
is always given to the estimator, and the flush-contact vision constraint is
given exactly when `choose_vision_hypothesis` returned that hypothesis index;
in CornerContactMode, by contrast, a null choice means no vision input at
all. -/
theorem claim4_amended (nv : ℕ) (s : LoopState) (i : CycleInputs) :
    (selectMode (midState s i) i = Mode.flush →
      visionFresh (midState s i) = true →
      EstCall.add_vision_estimate ∈ (runCycle nv s i).trace ∧
      ∀ k, (EstCall.add_vision_constraints_hand_flush_contact k ∈
          (runCycle nv s i).trace ↔ i.choose_hyp_flush = some k)) ∧
    (selectMode (midState s i) i = Mode.corner → i.choose_hyp_corner = none →
      EstCall.add_vision_estimate ∉ (runCycle nv s i).trace) := by
  constructor
  · intro hm hf
    rw [runCycle_trace, hm]
    refine ⟨(mem_vision_flushAction _ _ _ _).mpr hf, fun k => ?_⟩
    show EstCall.add_vision_constraints_hand_flush_contact k ∈
      (flushAction (midState s i) i (wallRight i || wallLeft i) nv).trace ↔ _
    rw [mem_constraint_flushAction]
    simp [hf]
  · intro hm hk
    rw [runCycle_trace, hm]
    show EstCall.add_vision_estimate ∉ (cornerAction _ _ _).trace
    simp [mem_vision_cornerAction, hk]

/-- C4 witness: a concrete fresh-vision flush cycle with a chosen hypothesis
receives both the vision estimate and the flush vision constraint. -/
theorem claim4_witness :
    EstCall.add_vision_estimate ∈ (runCycle 4 sBase iC4b).trace ∧
    (EstCall.add_vision_constraints_hand_flush_contact 1 ∈
        (runCycle 4 sBase iC4b).trace ↔ iC4b.choose_hyp_flush = some 1) :=
  have h := (claim4_amended 4 sBase iC4b).1
    (by with_unfolding_all decide) (by with_unfolding_all decide)
  ⟨h.1, h.2 1⟩

/-- C5: whenever the no-contact branch is reached, the transition-check and
long-staleness preconditions hold; its actions run exactly when the no-contact
kinematic hypothesis set has exactly one hypothesis; with 0 or 2+ hypotheses
the cycle issues no estimator call, leaves the estimator slice and the
line-contact flag unchanged, and the fired outcome is idle. -/
theorem claim5_no_contact_gating (nv : ℕ) (s : LoopState) (i : CycleInputs) :
    ((runCycle nv s i).mode = Mode.noContact →
      i.line_line_to_no_contact_check = true ∧
        (midState s i).time_since_last_vision_message > 1) ∧
    ((runCycle nv s i).mode = Mode.noContact →
      ((runCycle nv s i).can_run_estimate = true ↔ i.num_hyp_no_contact = 1)) ∧
    ((runCycle nv s i).mode = Mode.noContact → i.num_hyp_no_contact ≠ 1 →
      (runCycle nv s i).trace = [] ∧
      (runCycle nv s i).state.est = s.est ∧
      (runCycle nv s i).state.prev_step_was_line_contact =
        s.prev_step_was_line_contact ∧
      firedMode (runCycle nv s i) = Mode.idle) := by
  have hmode := runCycle_mode nv s i
  refine ⟨fun h => ?_, fun h => ?_, fun h hnum => ?_⟩
  · rw [hmode] at h
    have hg := selectMode_noContact_guard _ _ h
    unfold noContactGuard at hg
    simpa [decide_eq_true_iff] using hg
  · rw [hmode] at h
    rw [runCycle_can_run, h]
    show (noContactAction _ i).can_run_estimate = true ↔ _
    unfold noContactAction
    by_cases h1 : i.num_hyp_no_contact = 1 <;> simp [h1, idleResult]
  · rw [hmode] at h
    have hbr : (branchAction (selectMode (midState s i) i) (midState s i) i
        (wallRight i || wallLeft i) nv).can_run_estimate = false := by
      rw [h]
      show (noContactAction _ i).can_run_estimate = false
      unfold noContactAction
      simp [hnum, idleResult]
    have hbr_est : (branchAction (selectMode (midState s i) i) (midState s i) i
        (wallRight i || wallLeft i) nv).est = (midState s i).est := by
      rw [h]
      show (noContactAction _ i).est = _
      unfold noContactAction
      simp [hnum, idleResult]
    have hbr_prev : (branchAction (selectMode (midState s i) i) (midState s i) i
        (wallRight i || wallLeft i) nv).prev_step_was_line_contact =
        (midState s i).prev_step_was_line_contact := by
      rw [h]
      show (noContactAction _ i).prev_step_was_line_contact = _
      unfold noContactAction
      simp [hnum, idleResult]
    refine ⟨?_, ?_, ?_, ?_⟩
    · rw [runCycle_trace, h]
      show (noContactAction _ i).trace = []
      unfold noContactAction
      simp [hnum, idleResult]
    · rw [runCycle_state_no_run nv s i hbr]
      show (branchAction (selectMode (midState s i) i) (midState s i) i
        (wallRight i || wallLeft i) nv).est = s.est
      rw [hbr_est, midState_est]
    · rw [runCycle_prev, hbr_prev, midState_prev]
    · unfold firedMode
      rw [runCycle_can_run, hbr]
      rfl

/-- C5 witness: a concrete blocked no-contact cycle (0 hypotheses). -/
theorem claim5_witness :
    iC5.line_line_to_no_contact_check = true ∧
    (midState sBase iC5).time_since_last_vision_message > 1 ∧
    (runCycle 4 sBase iC5).trace = [] ∧
    firedMode (runCycle 4 sBase iC5) = Mode.idle :=
  have h1 := (claim5_no_contact_gating 4 sBase iC5).1 (by with_unfolding_all decide)
  have h3 := (claim5_no_contact_gating 4 sBase iC5).2.2
    (by with_unfolding_all decide) (by with_unfolding_all decide)
  ⟨h1.1, h1.2, h3.1, h3.2.2.2⟩

/-- C6 counterexample: a single right-side row with `a_er · wrench = 5.0` and
`b_er = 1.0` DOES trigger the right-wall contact test, because
`5.0 > 1.0 + 3.0` holds — refuting the claim that this fixture does not
trigger it. -/
theorem claim6_counterexample :
    dotQ [1] [5] = 5 ∧ ((1 : ℚ) + 3 < 5) ∧ wallSideBool [[1]] [1] [5] = true := by
  with_unfolding_all decide

/-- C6 amended: with the margin fixed at 3.0, a single inequality row triggers
the wall test exactly when `a · wrench > b + 3.0`; hence both the
`(a·w = 5.0, b = 1.0)` and the `(a·w = 5.0, b = 0.5)` fixtures trigger the
right-wall test (and `b = 2.0` does not, since `5.0 > 5.0` fails). -/
theorem claim6_amended (a : List ℚ) (b : ℚ) (w : List ℚ) :
    wallSideBool [a] [b] w =
      decide (dotQ a w > b + wall_contact_force_margin) ∧
    wallSideBool [[1]] [1] [5] = true ∧
    wallSideBool [[1]] [1 / 2] [5] = true ∧
    wallSideBool [[1]] [2] [5] = false := by
  refine ⟨?_, by with_unfolding_all decide, by with_unfolding_all decide,
    by with_unfolding_all decide⟩
  unfold wallSideBool
  simp

/-- C7: whenever the flush-line branch fires, `prev_step_was_line_contact` is
true on exit, and the estimator's `s_current` is overwritten with the
reasoner's slip estimate exactly when the previous cycle was not a
line-contact cycle (otherwise it is left unchanged). -/
theorem claim7_slip_reseed (nv : ℕ) (s : LoopState) (i : CycleInputs)
    (hm : selectMode (midState s i) i = Mode.flush) :
    (runCycle nv s i).state.prev_step_was_line_contact = true ∧
    (runCycle nv s i).state.est.s_current =
      (if s.prev_step_was_line_contact then s.est.s_current
       else i.slip_reasoner) := by
  constructor
  · rw [runCycle_prev, hm]
    exact flushAction_prev _ _ _ _
  · rw [runCycle_s_current, hm]
    show (flushAction (midState s i) i (wallRight i || wallLeft i) nv).est.s_current = _
    rw [flushAction_s_current, midState_prev, midState_est]

/-- C7 witness: a concrete flush cycle entered from a non-line-contact cycle
re-seeds `s_current` from the reasoner. -/
theorem claim7_witness :
    (runCycle 4 sPrevF iC4).state.prev_step_was_line_contact = true ∧
    (runCycle 4 sPrevF iC4).state.est.s_current =
      (if sPrevF.prev_step_was_line_contact then sPrevF.est.s_current
       else iC4.slip_reasoner) :=
  claim7_slip_reseed 4 sPrevF iC4 (by with_unfolding_all decide)

/-- Modelled from the spec: the external estimator
(`gtsam_advanced_estimator`, whose source is not part of this repository
snapshot) maintains its active contact vertex set (`contact_vertices`) as
either `None` — no contact vertices — or a nonempty list of vertex indices
that are valid indices into the per-vertex arrays of the estimate snapshot
(spec sections 3, 4.5 and 6: the contact set is a subset of the estimator's
stably-ordered vertex set). -/
def ContactVerticesWF (cv : Option (List ℕ)) (d : EstimateDict) : Bool :=
  match cv with
  | none => true
  | some l =>
      !l.isEmpty &&
        l.all (fun x => decide (x < d.vn.length) && decide (x < d.vt.length))

lemma buildPivot_wf (cv : Option (List ℕ)) (d : EstimateDict) (z : ℚ)
    (hwf : ContactVerticesWF cv d = true) :
    (buildPivot cv d z = Except.ok none ↔ cv = none) ∧
    (∀ ci rest, cv = some (ci :: rest) →
      buildPivot cv d z =
        Except.ok (some (d.vn.getD ci 0, d.vt.getD ci 0, z))) ∧
    (∀ err, buildPivot cv d z ≠ Except.error err) := by
  match cv with
  | none => simp [buildPivot]
  | some [] => simp [ContactVerticesWF] at hwf
  | some (ci :: rest) =>
      simp only [ContactVerticesWF, List.isEmpty_cons, Bool.not_false,
        Bool.true_and, List.all_cons, Bool.and_eq_true,
        decide_eq_true_eq] at hwf
      obtain ⟨⟨h1, h2⟩, _⟩ := hwf
      have hvn : d.vn[ci]? = some (d.vn.getD ci 0) := by
        rw [List.getD_eq_getElem?_getD]
        cases h : d.vn[ci]? with
        | none => rw [List.getElem?_eq_none_iff] at h; omega
        | some v => rfl
      have hvt : d.vt[ci]? = some (d.vt.getD ci 0) := by
        rw [List.getD_eq_getElem?_getD]
        cases h : d.vt[ci]? with
        | none => rw [List.getElem?_eq_none_iff] at h; omega
        | some v => rfl
      refine ⟨?_, ?_, ?_⟩
      · unfold buildPivot
        dsimp only
        rw [hvn, hvt]
        simp
      · intro ci' rest' h'
        obtain ⟨rfl, rfl⟩ : ci = ci' ∧ rest = rest' := by
          simpa using h'
        unfold buildPivot
        dsimp only
        rw [hvn, hvt]
      · intro err
        unfold buildPivot
        dsimp only
        rw [hvn, hvt]
        simp

/-- C8: on a cycle whose branch ran and whose estimate is non-null, given the
estimator's contract that the contact vertex set is absent or a nonempty list
of in-range indices, the pivot-frame message is published exactly when the
contact vertex set is non-empty, it carries the first contact vertex's
(normal, tangential) position together with the fixed height, and the access
to the first element never goes out of bounds (the pivot step never errors). -/
theorem claim8_pivot (nv : ℕ) (s : LoopState) (i : CycleInputs)
    (d : EstimateDict)
    (hrun : (runCycle nv s i).can_run_estimate = true)
    (he : i.estimate_result = some d)
    (hwf : ContactVerticesWF i.contact_vertices_result d = true) :
    ((runCycle nv s i).pivot = Except.ok none ↔
      i.contact_vertices_result = none) ∧
    (∀ ci rest, i.contact_vertices_result = some (ci :: rest) →
      (runCycle nv s i).pivot =
        Except.ok (some (d.vn.getD ci 0, d.vt.getD ci 0,
          i.hand_front_center_z))) ∧
    (∀ err, (runCycle nv s i).pivot ≠ Except.error err) := by
  rw [runCycle_can_run] at hrun
  have hpub := runCycle_pub_of_some nv s i d he hrun
  rw [hpub.2]
  exact buildPivot_wf i.contact_vertices_result d i.hand_front_center_z hwf

/-- C8 witness: a concrete corner-contact cycle with a one-element contact
vertex set publishes that vertex's position and produces no error. -/
theorem claim8_witness :
    (runCycle 4 sFeas iC8).pivot =
      Except.ok (some (d0.vn.getD 1 0, d0.vt.getD 1 0,
        iC8.hand_front_center_z)) ∧
    (runCycle 4 sFeas iC8).pivot ≠ Except.error "e" :=
  have h := claim8_pivot 4 sFeas iC8 d0 (by with_unfolding_all decide) rfl
    (by with_unfolding_all decide)
  ⟨h.2.1 1 [] rfl, h.2.2 "e"⟩

/-- C9: whenever the corner-contact branch fires it sets
`prev_step_was_line_contact` to false, so a flush-line cycle immediately
following a corner-contact cycle re-seeds the estimator's slip parameter from
the reasoner's estimate. -/
theorem claim9_corner_clears_prev (nv : ℕ) (s : LoopState)
    (i1 i2 : CycleInputs)
    (h1 : selectMode (midState s i1) i1 = Mode.corner)
    (h2 : selectMode (midState (cycleState nv i1 s) i2) i2 = Mode.flush) :
    (cycleState nv i1 s).prev_step_was_line_contact = false ∧
    (runCycle nv (cycleState nv i1 s) i2).state.est.s_current =
      i2.slip_reasoner := by
  have hp : (cycleState nv i1 s).prev_step_was_line_contact = false := by
    rw [cycleState, runCycle_prev, h1]
    exact cornerAction_prev _ _ _
  refine ⟨hp, ?_⟩
  rw [runCycle_s_current, h2]
  show (flushAction (midState (cycleState nv i1 s) i2) i2 _ nv).est.s_current = _
  rw [flushAction_s_current, midState_prev, hp]
  rfl

/-- C9 witness: a concrete corner cycle (counter at 14 going to 15) followed
by a flush cycle (counter reaching 16 clears the corner flag); the second
cycle re-seeds `s_current` with the reasoner's slip estimate. -/
theorem claim9_witness :
    (cycleState 4 iCF s14).prev_step_was_line_contact = false ∧
    (runCycle 4 (cycleState 4 iCF s14) iCF).state.est.s_current =
      iCF.slip_reasoner :=
  claim9_corner_clears_prev 4 s14 iCF iCF
    (by with_unfolding_all decide) (by with_unfolding_all decide)

/-- C10: on every cycle in which a branch ran, the reasoner's stored previous
estimate is overwritten with the raw `compute_basic_estimate` result — even
when that result is null — while snapshot publication is skipped exactly in
the null case; when no branch ran, the reasoner's stored previous estimate is
untouched. -/
theorem claim10_rpe (nv : ℕ) (s : LoopState) (i : CycleInputs) :
    ((runCycle nv s i).can_run_estimate = true →
      (runCycle nv s i).state.reasoner_prev_estimate = i.estimate_result ∧
      (i.estimate_result = none →
        (runCycle nv s i).contact_published = false ∧
        (runCycle nv s i).pivot = Except.ok none)) ∧
    ((runCycle nv s i).can_run_estimate = false →
      (runCycle nv s i).state.reasoner_prev_estimate =
        s.reasoner_prev_estimate) := by
  constructor
  · intro h
    rw [runCycle_can_run] at h
    refine ⟨?_, fun he => runCycle_pub_of_none nv s i he⟩
    rw [runCycle_rpe, h]
    rfl
  · intro h
    rw [runCycle_can_run] at h
    rw [runCycle_rpe, h]
    rfl

/-- C10 witness: a concrete corner cycle whose estimate is null overwrites the
reasoner's previous estimate with null and skips publication. -/
theorem claim10_witness :
    (runCycle 4 sFeas iCorner).state.reasoner_prev_estimate =
      iCorner.estimate_result ∧
    (runCycle 4 sFeas iCorner).contact_published = false :=
  have h := (claim10_rpe 4 sFeas iCorner).1 (by with_unfolding_all decide)
  ⟨h.1, (h.2 rfl).1⟩

end PBal
